import Mathlib

/-!
Verification of the DeepScoresV2 `obb_anns` evaluation engine
(`src/obb_anns/obb_anns.py`).  The Python code is shallowly embedded:
pandas `DataFrame`s of annotations/proposals become Lean lists of
structures, numpy float arithmetic becomes exact rational arithmetic
over `ℚ`, and operations that can raise Python exceptions
(`ValueError`, `KeyError`, failed `assert`) return `Option`/`Except`.
-/

namespace DeepScores

/-- An axis-aligned box `(xmin, ymin, xmax, ymax)`, the shape of both
`a_bbox` fields and 4-coordinate proposal boxes. -/
structure Box4 where
  x0 : ℚ
  y0 : ℚ
  x1 : ℚ
  y1 : ℚ
deriving DecidableEq

/-- One row of `self.ann_info` (the ground-truth annotation table built by
`load_annotations`): the DataFrame index (`id`), `a_bbox`, `o_bbox`,
`cat_id` (one category id per annotation set) and `img_id`. -/
structure Ann where
  id : ℤ
  a_bbox : List ℚ
  o_bbox : List ℚ
  cat_id : List ℤ
  img_id : ℤ
deriving DecidableEq

/-- One row of `self.proposals` built by `load_proposals`:
`bbox`, `cat_id`, `img_idx`, `score`. -/
structure Proposal where
  bbox : List ℚ
  cat_id : ℤ
  img_idx : ℤ
  score : ℚ
deriving DecidableEq

/-- One entry of the `overlaps` list built in `calculate_metrics`:
`[val, overlap, det['cat_id'], float(det['score'])]`. -/
structure OverlapRec where
  bbox_id : ℤ
  overlap : ℚ
  cat_id : ℤ
  score : ℚ
deriving DecidableEq

/-- Reads the four components `l[0] .. l[3]` of a bbox list, the way
`calculate_aligned_overlap` indexes its arguments. -/
def toBox4 (l : List ℚ) : Box4 :=
  ⟨l.getD 0 0, l.getD 1 0, l.getD 2 0, l.getD 3 0⟩

/-- Python's `min([a, b])` on rationals, written so that the kernel can
evaluate it on concrete inputs. -/
def qmin (a b : ℚ) : ℚ := if a ≤ b then a else b

/-- Python's `max([a, b])` on rationals, written so that the kernel can
evaluate it on concrete inputs. -/
def qmax (a b : ℚ) : ℚ := if a ≤ b then b else a

theorem qmin_eq_min (a b : ℚ) : qmin a b = min a b := (min_def a b).symm

theorem qmax_eq_max (a b : ℚ) : qmax a b = max a b := (max_def a b).symm

/-- `calculate_aligned_overlap` (obb_anns.py lines 408-420): the
axis-aligned overlap ratio.  Division is exact rational division; the
guard reproduces `if (dx_int >= 0) and (dy_int >= 0)`. -/
def calculate_aligned_overlap (gt det : Box4) : ℚ :=
  let dx_int := qmin gt.x1 det.x1 - qmax gt.x0 det.x0
  let dy_int := qmin gt.y1 det.y1 - qmax gt.y0 det.y0
  let dx_ov := qmax gt.x1 det.x1 - qmin gt.x0 det.x0
  let dy_ov := qmax gt.y1 det.y1 - qmin gt.y0 det.y0
  if 0 ≤ dx_int ∧ 0 ≤ dy_int then (dx_int * dy_int) / (dx_ov * dy_ov) else 0

/-- Modelled from the spec: the genuine intersection-over-union of two
axis-aligned boxes (denominator `area(A) + area(B) - intersection`),
stated only to exhibit that `calculate_aligned_overlap` is **not** this
function, as §4.1 of the spec warns. -/
def true_iou (gt det : Box4) : ℚ :=
  let dx_int := qmin gt.x1 det.x1 - qmax gt.x0 det.x0
  let dy_int := qmin gt.y1 det.y1 - qmax gt.y0 det.y0
  let inter := if 0 ≤ dx_int ∧ 0 ≤ dy_int then dx_int * dy_int else 0
  let area_gt := (gt.x1 - gt.x0) * (gt.y1 - gt.y0)
  let area_det := (det.x1 - det.x0) * (det.y1 - det.y0)
  inter / (area_gt + area_det - inter)

/-- Claim C3: for every pair of axis-aligned boxes, the aligned overlap
function returns `(dx_int * dy_int) / (dx_ov * dy_ov)` (with
`dx_int = min(xmax) - max(xmin)` etc. and `dx_ov = max(xmax) - min(xmin)`
etc.) whenever both intersection dimensions are nonnegative, and `0`
otherwise; moreover the value differs from the true IoU at a concrete
pair of boxes, so the denominator really is the bounding-extent product
and not a true IoU union. -/
theorem C3_aligned_overlap_formula (gt det : Box4) :
    (0 ≤ min gt.x1 det.x1 - max gt.x0 det.x0 ∧ 0 ≤ min gt.y1 det.y1 - max gt.y0 det.y0 →
      calculate_aligned_overlap gt det =
        ((min gt.x1 det.x1 - max gt.x0 det.x0) * (min gt.y1 det.y1 - max gt.y0 det.y0)) /
          ((max gt.x1 det.x1 - min gt.x0 det.x0) * (max gt.y1 det.y1 - min gt.y0 det.y0))) ∧
    (¬ (0 ≤ min gt.x1 det.x1 - max gt.x0 det.x0 ∧ 0 ≤ min gt.y1 det.y1 - max gt.y0 det.y0) →
      calculate_aligned_overlap gt det = 0) ∧
    calculate_aligned_overlap ⟨0, 0, 2, 2⟩ ⟨1, 1, 3, 3⟩ ≠ true_iou ⟨0, 0, 2, 2⟩ ⟨1, 1, 3, 3⟩ := by
  refine ⟨fun h => ?_, fun h => ?_, by norm_num [calculate_aligned_overlap, true_iou, qmin, qmax]⟩
  · simp only [calculate_aligned_overlap, qmin_eq_min, qmax_eq_max, if_pos h]
  · simp only [calculate_aligned_overlap, qmin_eq_min, qmax_eq_max, if_neg h]

/-- Witness for C3 at the concrete boxes `(0,0,2,2)` and `(1,1,3,3)`. -/
theorem C3_aligned_overlap_formula_witness :
    calculate_aligned_overlap ⟨0, 0, 2, 2⟩ ⟨1, 1, 3, 3⟩ =
      ((min (2 : ℚ) 3 - max 0 1) * (min (2 : ℚ) 3 - max 0 1)) /
        ((max (2 : ℚ) 3 - min 0 1) * (max (2 : ℚ) 3 - min 0 1)) :=
  (C3_aligned_overlap_formula ⟨0, 0, 2, 2⟩ ⟨1, 1, 3, 3⟩).1 (by norm_num)

/-- `pandas.Series.max` over an `(index, value)`-indexed series:
maximum of the values of a nonempty series (`overlaps.max()`). -/
def seriesMax : List (ℤ × ℚ) → ℚ
  | [] => 0
  | [(_, v)] => v
  | (_, v) :: x :: xs => qmax v (seriesMax (x :: xs))

/-- `pandas.Series.idxmax`: the index label of the first occurrence of
the maximum value (`overlaps.idxmax()`). -/
def seriesIdxmax : List (ℤ × ℚ) → ℤ
  | [] => -1
  | [(i, _)] => i
  | (i, v) :: x :: xs => if seriesMax (x :: xs) ≤ v then i else seriesIdxmax (x :: xs)

/-- The rows of `img_gt` whose first-position category id equals the
detection's category id: `img_gt[gt_cat_id == detection['cat_id']]` with
`gt_cat_id = img_gt['cat_id'].map(lambda x: x[0])`. -/
def same_cat_gt (det : Proposal) (img_gt : List Ann) : List Ann :=
  img_gt.filter (fun g => decide (g.cat_id.headD 0 = det.cat_id))

/-- The overlap series computed in the aligned (4-coordinate) branch of
`calculate_tpfp`: one `(ann id, aligned overlap)` pair per
same-category ground-truth candidate. -/
def alignedOverlaps (det : Proposal) (cands : List Ann) : List (ℤ × ℚ) :=
  cands.map (fun g => (g.id, calculate_aligned_overlap (toBox4 g.a_bbox) (toBox4 det.bbox)))

/-- `calculate_tpfp` (obb_anns.py lines 393-453), aligned branch
(`self.props_oriented == False`).  Returns the pair
`(bbox_id, overlap)` of the dict the Python function returns. -/
def calculate_tpfp (det : Proposal) (img_gt : List Ann) : ℤ × ℚ :=
  let cands := same_cat_gt det img_gt
  if 0 < cands.length then
    let overlaps := alignedOverlaps det cands
    let max_overlap := seriesMax overlaps
    if 1 / 5 < max_overlap then (seriesIdxmax overlaps, max_overlap)
    else (-1, 0)
  else (-1, 0)

/-- `pandas.DataFrame.drop(label)` on the ground-truth frame: removes
every row whose index label equals `val` (`img_gt.drop(val)`). -/
def drop_id (img_gt : List Ann) (val : ℤ) : List Ann :=
  img_gt.filter (fun g => decide (g.id ≠ val))

/-- The inner loop of `calculate_metrics` (lines 468-474): walk the
(already sorted) detections of one image, emit one overlap record per
detection, and drop a claimed ground truth from the pool. -/
def matchLoop : List Proposal → List Ann → List OverlapRec
  | [], _ => []
  | det :: rest, img_gt =>
    let tpfp := calculate_tpfp det img_gt
    ⟨tpfp.1, tpfp.2, det.cat_id, det.score⟩ ::
      matchLoop rest (if tpfp.1 ≠ -1 then drop_id img_gt tpfp.1 else img_gt)

/-- `img_props.sort_values('score')`: pandas sorts ascending by the
`score` column before the per-detection loop runs. -/
def sort_values_score (props : List Proposal) : List Proposal :=
  List.insertionSort (fun a b => a.score ≤ b.score) props

/-- One iteration of the per-image loop in `calculate_metrics`
(lines 459-474): sort the image's detections by ascending confidence,
then match them greedily against the image's ground truth. -/
def process_image (img_props : List Proposal) (img_gt : List Ann) : List OverlapRec :=
  matchLoop (sort_values_score img_props) img_gt

/-- The matched-ground-truth ids (`bbox_id` fields other than the `-1`
sentinel) of a record list. -/
def matchedIds (recs : List OverlapRec) : List ℤ :=
  (recs.map OverlapRec.bbox_id).filter (fun v => decide (v ≠ -1))

/-- `calculate_tpfp`, oriented branch (`self.props_oriented == True`,
lines 426-431).  `iouPoly` stands for the external `polyiou.iou_poly`
C++ function.  The Python builds
`pd.DataFrame(\x7b'gt': same_cat_gt['o_bbox'], 'det': [detection['bbox'] * len(same_cat_gt)]\x7d)`:
the `det` column is a ONE-element list holding the detection bbox
element-wise multiplied by the candidate count, and pandas raises a
`ValueError` when the column lengths differ. -/
def calculate_tpfp_oriented (iouPoly : List ℚ → List ℚ → ℚ) (det : Proposal)
    (img_gt : List Ann) : Except String (ℤ × ℚ) :=
  let cands := same_cat_gt det img_gt
  if 0 < cands.length then
    let gtCol := cands.map (fun g => (g.id, g.o_bbox))
    let detCol := [det.bbox.map (fun x => x * (cands.length : ℚ))]
    if detCol.length = gtCol.length then
      let overlaps := (gtCol.zip detCol).map (fun p => (p.1.1, iouPoly p.1.2 p.2))
      let max_overlap := seriesMax overlaps
      if 1 / 5 < max_overlap then .ok (seriesIdxmax overlaps, max_overlap)
      else .ok (-1, 0)
    else .error "ValueError: Length of values does not match length of index"
  else .ok (-1, 0)

/-- The bbox-arity validation of `load_proposals` (lines 193-197):
`bbox_len = len(props['proposals'][0]['bbox'])` followed by
`assert bbox_len in (4, 8)`; on success `self.props_oriented` is set to
`bbox_len == 8`.  Only the FIRST entry is inspected. -/
def load_proposals_check (props : List (List ℚ)) : Except String Bool :=
  match props with
  | [] => .error "IndexError: list index out of range"
  | b :: _ =>
    if b.length = 4 ∨ b.length = 8 then .ok (decide (b.length = 8))
    else .error "bbox proposal is malformed. bbox must have a length of 4 or 8."

/-- Concrete ground-truth annotation used in witnesses: id 1, class 3,
axis-aligned box `[0,0,10,10]`. -/
def ann0 : Ann := ⟨1, [0, 0, 10, 10], [0, 0, 10, 0, 10, 10, 0, 10], [3], 0⟩

/-- A second class-3 ground truth, disjoint from `ann0`. -/
def ann2 : Ann := ⟨2, [20, 0, 30, 10], [20, 0, 30, 0, 30, 10, 20, 10], [3], 0⟩

/-- A high-confidence detection of `ann0`'s box. -/
def detHigh : Proposal := ⟨[0, 0, 10, 10], 3, 0, 9 / 10⟩

/-- A low-confidence detection of `ann0`'s box. -/
def detLow : Proposal := ⟨[0, 0, 10, 10], 3, 0, 1 / 10⟩

/-- An 8-coordinate (oriented) detection of `ann0`'s box. -/
def detOr : Proposal := ⟨[0, 0, 10, 0, 10, 10, 0, 10], 3, 0, 9 / 10⟩

theorem series_first_max : ∀ l : List (ℤ × ℚ), l ≠ [] →
    ∃ k, ∃ hk : k < l.length, l.get ⟨k, hk⟩ = (seriesIdxmax l, seriesMax l) ∧
      ∀ j, ∀ hj : j < l.length, j < k → (l.get ⟨j, hj⟩).2 < seriesMax l
  | [], h => absurd rfl h
  | [(i, v)], _ => by
    refine ⟨0, by norm_num, by simp [seriesMax, seriesIdxmax], ?_⟩
    intro j hj hlt
    exact absurd hlt (Nat.not_lt_zero j)
  | (i, v) :: x :: xs, _ => by
    by_cases hc : seriesMax (x :: xs) ≤ v
    · refine ⟨0, by simp, ?_, fun j hj hlt => absurd hlt (Nat.not_lt_zero j)⟩
      simp only [List.get, seriesIdxmax, seriesMax, if_pos hc, qmax_eq_max]
      rw [max_eq_left hc]
    · push_neg at hc
      obtain ⟨k, hk, hget, hbefore⟩ := series_first_max (x :: xs) (by simp)
      have hmax : seriesMax ((i, v) :: x :: xs) = seriesMax (x :: xs) := by
        simp only [seriesMax, qmax_eq_max]
        exact max_eq_right hc.le
      have hidx : seriesIdxmax ((i, v) :: x :: xs) = seriesIdxmax (x :: xs) := by
        simp only [seriesIdxmax, if_neg (not_le.mpr hc)]
      refine ⟨k + 1, by simpa using Nat.succ_lt_succ hk, ?_, ?_⟩
      · rw [List.get_cons_succ, hget, hmax, hidx]
      · intro j hj hlt
        match j with
        | 0 => simpa [hmax] using hc
        | j' + 1 =>
          rw [List.get_cons_succ, hmax]
          exact hbefore j' (by simpa using hj) (by omega)

theorem seriesIdxmax_mem (l : List (ℤ × ℚ)) (h : l ≠ []) : seriesIdxmax l ∈ l.map Prod.fst := by
  obtain ⟨k, hk, hget, _⟩ := series_first_max l h
  have : l.get ⟨k, hk⟩ ∈ l := l.get_mem k hk
  have := List.mem_map_of_mem Prod.fst this
  rwa [hget] at this

theorem calculate_tpfp_empty (det : Proposal) (img_gt : List Ann)
    (h : ¬ 0 < (same_cat_gt det img_gt).length) :
    calculate_tpfp det img_gt = (-1, 0) := by
  simp only [calculate_tpfp]
  rw [if_neg h]

theorem calculate_tpfp_low (det : Proposal) (img_gt : List Ann)
    (h0 : 0 < (same_cat_gt det img_gt).length)
    (h1 : ¬ (1 : ℚ) / 5 < seriesMax (alignedOverlaps det (same_cat_gt det img_gt))) :
    calculate_tpfp det img_gt = (-1, 0) := by
  simp only [calculate_tpfp]
  rw [if_pos h0, if_neg h1]

theorem calculate_tpfp_high (det : Proposal) (img_gt : List Ann)
    (h0 : 0 < (same_cat_gt det img_gt).length)
    (h1 : (1 : ℚ) / 5 < seriesMax (alignedOverlaps det (same_cat_gt det img_gt))) :
    calculate_tpfp det img_gt =
      (seriesIdxmax (alignedOverlaps det (same_cat_gt det img_gt)),
       seriesMax (alignedOverlaps det (same_cat_gt det img_gt))) := by
  simp only [calculate_tpfp]
  rw [if_pos h0, if_pos h1]

theorem calculate_tpfp_fst_mem (det : Proposal) (img_gt : List Ann) :
    (calculate_tpfp det img_gt).1 = -1 ∨ (calculate_tpfp det img_gt).1 ∈ img_gt.map Ann.id := by
  by_cases h0 : 0 < (same_cat_gt det img_gt).length
  · by_cases h1 : (1 : ℚ) / 5 < seriesMax (alignedOverlaps det (same_cat_gt det img_gt))
    · right
      rw [calculate_tpfp_high det img_gt h0 h1]
      have hne : alignedOverlaps det (same_cat_gt det img_gt) ≠ [] := by
        simp only [alignedOverlaps, ne_eq, List.map_eq_nil_iff]
        intro hnil
        rw [hnil] at h0
        simp at h0
      have hm : seriesIdxmax (alignedOverlaps det (same_cat_gt det img_gt)) ∈
          (same_cat_gt det img_gt).map Ann.id := by
        have hmem := seriesIdxmax_mem _ hne
        simpa [alignedOverlaps, List.map_map, Function.comp] using hmem
      obtain ⟨g, hg, hga⟩ := List.mem_map.mp hm
      exact List.mem_map.mpr ⟨g, List.mem_of_mem_filter hg, hga⟩
    · left
      rw [calculate_tpfp_low det img_gt h0 h1]
  · left
    rw [calculate_tpfp_empty det img_gt h0]

theorem matchLoop_score_mem : ∀ (dets : List Proposal) (gt : List Ann) (r : OverlapRec),
    r ∈ matchLoop dets gt → ∃ d ∈ dets, r.score = d.score
  | [], _, r, h => absurd h (by simp [matchLoop])
  | det :: rest, gt, r, h => by
    rw [matchLoop] at h
    rcases List.mem_cons.mp h with h | h
    · exact ⟨det, List.mem_cons_self det rest, by rw [h]⟩
    · obtain ⟨d, hd, hs⟩ := matchLoop_score_mem rest _ r h
      exact ⟨d, List.mem_cons_of_mem det hd, hs⟩

theorem matchLoop_pairwise : ∀ (dets : List Proposal) (gt : List Ann),
    List.Pairwise (fun a b : Proposal => a.score ≤ b.score) dets →
    List.Pairwise (fun a b : OverlapRec => a.score ≤ b.score) (matchLoop dets gt)
  | [], _, _ => by simp [matchLoop]
  | det :: rest, gt, h => by
    rw [matchLoop]
    rw [List.pairwise_cons] at h
    refine List.pairwise_cons.mpr ⟨?_, matchLoop_pairwise rest _ h.2⟩
    intro r hr
    obtain ⟨d, hd, hs⟩ := matchLoop_score_mem rest _ r hr
    rw [hs]
    exact h.1 d hd

instance : IsTotal Proposal (fun a b => a.score ≤ b.score) :=
  ⟨fun a b => le_total a.score b.score⟩

instance : IsTrans Proposal (fun a b => a.score ≤ b.score) :=
  ⟨fun _ _ _ h1 h2 => le_trans h1 h2⟩

/-- Claim C4: the per-image matcher processes detections in ascending
confidence-score order (pandas `sort_values('score')` sorts ascending),
so the emitted overlap records carry non-decreasing scores; concretely,
with one ground truth and a low- and a high-confidence detection of the
same box, the low-confidence detection claims the ground truth and the
high-confidence one is left unmatched. -/
theorem C4_ascending_confidence_order (img_props : List Proposal) (img_gt : List Ann) :
    List.Pairwise (fun a b : OverlapRec => a.score ≤ b.score) (process_image img_props img_gt) ∧
    process_image [detHigh, detLow] [ann0] =
      [⟨1, 1, 3, 1 / 10⟩, ⟨-1, 0, 3, 9 / 10⟩] := by
  constructor
  · exact matchLoop_pairwise _ _
      (List.sorted_insertionSort (fun a b : Proposal => a.score ≤ b.score) img_props)
  · norm_num [process_image, sort_values_score, List.insertionSort, List.orderedInsert,
      matchLoop, calculate_tpfp, same_cat_gt, alignedOverlaps, seriesMax, seriesIdxmax,
      calculate_aligned_overlap, toBox4, qmin, qmax, drop_id, detHigh, detLow, ann0]

/-- Claim C5: with at least one same-category candidate, the matcher
returns the id of the first candidate achieving the maximum overlap
together with that maximum whenever it exceeds the fixed threshold
`0.2`, and the claimed candidate is absent from the remaining pool; a
maximum of at most `0.2` (even if positive) or an empty candidate set
yields `(-1, 0)`. -/
theorem C5_reservation_threshold (det : Proposal) (img_gt : List Ann) :
    (same_cat_gt det img_gt = [] → calculate_tpfp det img_gt = (-1, 0)) ∧
    (same_cat_gt det img_gt ≠ [] →
      seriesMax (alignedOverlaps det (same_cat_gt det img_gt)) ≤ 1 / 5 →
      calculate_tpfp det img_gt = (-1, 0)) ∧
    (same_cat_gt det img_gt ≠ [] →
      1 / 5 < seriesMax (alignedOverlaps det (same_cat_gt det img_gt)) →
      calculate_tpfp det img_gt =
        (seriesIdxmax (alignedOverlaps det (same_cat_gt det img_gt)),
          seriesMax (alignedOverlaps det (same_cat_gt det img_gt))) ∧
      (∃ k, ∃ hk : k < (alignedOverlaps det (same_cat_gt det img_gt)).length,
        (alignedOverlaps det (same_cat_gt det img_gt)).get ⟨k, hk⟩ =
          (seriesIdxmax (alignedOverlaps det (same_cat_gt det img_gt)),
            seriesMax (alignedOverlaps det (same_cat_gt det img_gt))) ∧
        ∀ j, ∀ hj : j < (alignedOverlaps det (same_cat_gt det img_gt)).length, j < k →
          ((alignedOverlaps det (same_cat_gt det img_gt)).get ⟨j, hj⟩).2 <
            seriesMax (alignedOverlaps det (same_cat_gt det img_gt)))) ∧
    ((calculate_tpfp det img_gt).1 ≠ -1 →
      ∀ g ∈ drop_id img_gt (calculate_tpfp det img_gt).1,
        g.id ≠ (calculate_tpfp det img_gt).1) := by
  refine ⟨?_, ?_, ?_, ?_⟩
  · intro h
    exact calculate_tpfp_empty det img_gt (by simp [h])
  · intro hne h1
    exact calculate_tpfp_low det img_gt (List.length_pos.mpr hne) (not_lt.mpr h1)
  · intro hne h1
    refine ⟨calculate_tpfp_high det img_gt (List.length_pos.mpr hne) h1, ?_⟩
    apply series_first_max
    simp [alignedOverlaps, hne]
  · intro _ g hg
    have := (List.mem_filter.mp hg).2
    simpa using this

/-- Witness for C5: a detection identical to the single class-3 ground
truth has overlap `1 > 0.2` and is matched to annotation id 1. -/
theorem C5_reservation_threshold_witness : calculate_tpfp detHigh [ann0] = (1, 1) := by
  have h := (C5_reservation_threshold detHigh [ann0]).2.2.1
    (by norm_num [same_cat_gt, ann0, detHigh])
    (by norm_num [alignedOverlaps, same_cat_gt, seriesMax, calculate_aligned_overlap,
      toBox4, qmin, qmax, ann0, detHigh])
  rw [h.1]
  norm_num [alignedOverlaps, same_cat_gt, seriesMax, seriesIdxmax,
    calculate_aligned_overlap, toBox4, qmin, qmax, ann0, detHigh]

theorem matchedIds_cons (r : OverlapRec) (rs : List OverlapRec) :
    matchedIds (r :: rs) =
      if r.bbox_id ≠ -1 then r.bbox_id :: matchedIds rs else matchedIds rs := by
  by_cases h : r.bbox_id = -1
  · simp [matchedIds, h]
  · simp [matchedIds, h]

theorem matchLoop_avoid (v : ℤ) : ∀ (dets : List Proposal) (gt : List Ann),
    (∀ g ∈ gt, g.id ≠ v) → v ∉ matchedIds (matchLoop dets gt)
  | [], gt, _ => by simp [matchLoop, matchedIds]
  | det :: rest, gt, h => by
    simp only [matchLoop, matchedIds_cons]
    by_cases hv : (calculate_tpfp det gt).1 = -1
    · simpa [hv] using matchLoop_avoid v rest gt h
    · have hvin : (calculate_tpfp det gt).1 ∈ gt.map Ann.id :=
        (calculate_tpfp_fst_mem det gt).resolve_left hv
      have hvne : (calculate_tpfp det gt).1 ≠ v := by
        obtain ⟨g, hgmem, hgid⟩ := List.mem_map.mp hvin
        rw [← hgid]
        exact h g hgmem
      have hpool : ∀ g ∈ drop_id gt (calculate_tpfp det gt).1, g.id ≠ v := fun g hg =>
        h g (List.mem_of_mem_filter hg)
      have ih := matchLoop_avoid v rest _ hpool
      simp only [hv, ne_eq, not_false_eq_true, if_true, ite_true, List.mem_cons, not_or]
      exact ⟨fun hvv => hvne hvv.symm, ih⟩

theorem matchLoop_nodup : ∀ (dets : List Proposal) (gt : List Ann),
    (matchedIds (matchLoop dets gt)).Nodup
  | [], _ => by simp [matchLoop, matchedIds]
  | det :: rest, gt => by
    simp only [matchLoop, matchedIds_cons]
    by_cases hv : (calculate_tpfp det gt).1 = -1
    · simpa [hv] using matchLoop_nodup rest gt
    · simp only [hv, ne_eq, not_false_eq_true, if_true, ite_true]
      refine List.nodup_cons.mpr ⟨?_, matchLoop_nodup rest _⟩
      apply matchLoop_avoid
      intro g hg
      have := (List.mem_filter.mp hg).2
      simpa using this

/-- Claim C6: within one image the matcher never assigns the same
ground-truth id to two detections: the list of non-sentinel matched ids
in the per-image output has no duplicates.  This holds because a claimed
id is removed from the pool by `img_gt.drop(val)` (which deletes every
row with that label) before the next detection is processed. -/
theorem C6_no_double_claim (img_props : List Proposal) (img_gt : List Ann) :
    (matchedIds (process_image img_props img_gt)).Nodup :=
  matchLoop_nodup _ _

/-- Claim C7 (refuted, code bug): in the oriented branch the `det`
column is built as `[detection['bbox'] * len(same_cat_gt)]` — a
one-element list holding the bbox scaled by the candidate count — so
with two same-category candidates the DataFrame constructor raises a
`ValueError` instead of computing both polygon overlaps, whatever the
external `iou_poly` function is. -/
theorem C7_oriented_dataframe_error (iouPoly : List ℚ → List ℚ → ℚ) :
    calculate_tpfp_oriented iouPoly detOr [ann0, ann2] =
      .error "ValueError: Length of values does not match length of index" := by
  norm_num [calculate_tpfp_oriented, same_cat_gt, detOr, ann0, ann2]

/-- Claim C9 counterexample: a proposal set whose first entry has 8
coordinates and whose second entry has only 4 loads successfully
(`props_oriented = True`), because `load_proposals` inspects only
`props['proposals'][0]`; no invalid-input error is raised. -/
theorem C9_counterexample_mixed_arity_loads :
    load_proposals_check [[0, 0, 10, 0, 10, 10, 0, 10], [0, 0, 10, 10]] = .ok true := by
  norm_num [load_proposals_check]

/-- Claim C9 (amended): `load_proposals` validates only the FIRST
proposal entry: it fails with the malformed-bbox assertion error iff
the first entry's bbox length is neither 4 nor 8, and otherwise loads,
setting `props_oriented` to whether that first length is 8; later
entries are never checked. -/
theorem C9_amended_first_entry_check (b : List ℚ) (rest : List (List ℚ)) :
    (b.length = 4 ∨ b.length = 8 →
      load_proposals_check (b :: rest) = .ok (decide (b.length = 8))) ∧
    (¬ (b.length = 4 ∨ b.length = 8) →
      load_proposals_check (b :: rest) =
        .error "bbox proposal is malformed. bbox must have a length of 4 or 8.") := by
  constructor
  · intro h
    simp only [load_proposals_check, if_pos h]
  · intro h
    simp only [load_proposals_check, if_neg h]

/-- Witness for the amended C9 at a well-formed 4-coordinate first entry. -/
theorem C9_amended_first_entry_check_witness :
    load_proposals_check [[0, 0, 10, 10]] =
      .ok (decide (([0, 0, 10, 10] : List ℚ).length = 8)) :=
  (C9_amended_first_entry_check [0, 0, 10, 10] []).1 (by norm_num)

/-- `overlaps = overlaps[overlaps[:, 3].argsort()[::-1]]` (line 512):
sort the overlap records by confidence score, descending. -/
def sortOverlapsDesc (overlaps : List OverlapRec) : List OverlapRec :=
  List.insertionSort (fun a b => b.score ≤ a.score) overlaps

def cumsumGo : ℚ → List ℚ → List ℚ
  | _, [] => []
  | acc, x :: xs => (acc + x) :: cumsumGo (acc + x) xs

/-- `np.cumsum`: running totals of a list. -/
def cumsum (l : List ℚ) : List ℚ := cumsumGo 0 l

/-- `np.spacing(1)`, the gap between 1.0 and the next double: `2 ^ -52`. -/
def npSpacingOne : ℚ := 1 / 2 ^ 52

/-- `tp = overlaps[:, 1] >= iou_thr` as 0/1 indicators over the
score-sorted records. -/
def tp_flags (overlaps : List OverlapRec) (iou_thr : ℚ) : List ℚ :=
  (sortOverlapsDesc overlaps).map (fun o => if iou_thr ≤ o.overlap then 1 else 0)

/-- `fp = overlaps[:, 1] < iou_thr` as 0/1 indicators over the
score-sorted records. -/
def fp_flags (overlaps : List OverlapRec) (iou_thr : ℚ) : List ℚ :=
  (sortOverlapsDesc overlaps).map (fun o => if o.overlap < iou_thr then 1 else 0)

/-- `tp_sum = np.cumsum(tp)`. -/
def tp_cumsum (overlaps : List OverlapRec) (iou_thr : ℚ) : List ℚ :=
  cumsum (tp_flags overlaps iou_thr)

/-- `fp_sum = np.cumsum(fp)`. -/
def fp_cumsum (overlaps : List OverlapRec) (iou_thr : ℚ) : List ℚ :=
  cumsum (fp_flags overlaps iou_thr)

/-- The right-to-left running-maximum loop of `_average_precision`
('area' mode): `mpre[:, i-1] = np.maximum(mpre[:, i-1], mpre[:, i])`. -/
def envelope : List ℚ → List ℚ
  | [] => []
  | p :: ps =>
    match envelope ps with
    | [] => [p]
    | q :: qs => qmax p q :: q :: qs

/-- The summation of `_average_precision` ('area' mode): over positions
where consecutive recalls differ, add
`(mrec[i+1] - mrec[i]) * mpre[i+1]`. -/
def apSum : List ℚ → List ℚ → ℚ
  | r0 :: r1 :: rs, _ :: p1 :: ps =>
    (if r1 ≠ r0 then (r1 - r0) * p1 else 0) + apSum (r1 :: rs) (p1 :: ps)
  | _, _ => 0

/-- `_average_precision` (obb_anns.py lines 547-592) in the default
'area' mode on one scale: pad recalls with sentinels 0 and 1 and
precisions with 0 and 0, take the monotonic envelope of the precisions,
and integrate. -/
def average_precision (recalls precisions : List ℚ) : ℚ :=
  apSum (0 :: recalls ++ [1]) (envelope (0 :: precisions ++ [0]))

/-- `np.average` of a list (numpy yields NaN on an empty array; the
claims evaluated here never reach that case). -/
def npAverage (l : List ℚ) : ℚ := l.sum / l.length

/-- The per-threshold body of `_evaluate_overlaps` (lines 509-544):
returns `(recall, precision, average_precision)` for one threshold given
the ground-truth count `nr_gt`. -/
def evaluate_at (overlaps : List OverlapRec) (iou_thr : ℚ) (nr_gt : ℕ) :
    List ℚ × List ℚ × ℚ :=
  let tp_sum := tp_cumsum overlaps iou_thr
  let fp_sum := fp_cumsum overlaps iou_thr
  let recalls := if 0 < nr_gt then tp_sum.map (fun x => x / (nr_gt : ℚ))
    else tp_sum.map (fun x => x * 0)
  let precisions := (tp_sum.zip fp_sum).map (fun p => p.1 / (p.2 + p.1 + npSpacingOne))
  (recalls, precisions, average_precision recalls precisions)

/-- A scalar value reaching the `by_class` parameter of
`_evaluate_overlaps` on its intended paths: a class number (classwise
call) — `None` is modelled separately as `Option.none`.  The buggy
aggregate call instead binds `by_class` to the whole threshold TUPLE;
pandas then compares the Series against an array-like, a path modelled
by `seriesEqTuple` below because it can raise rather than yield a
boolean per row. -/
inductive PyVal where
  | num : ℚ → PyVal
deriving DecidableEq

/-- Pandas `==` between an element `int(x[0])` of the category Series
and a numeric `by_class`: elementwise numeric comparison. -/
def pyEq (a : ℤ) (b : PyVal) : Bool :=
  match b with
  | .num q => decide ((a : ℚ) = q)

/-- Pandas comparison of an integer Series with a TUPLE of rationals
(`Series == by_class` when `by_class` is the threshold tuple): pandas
treats the tuple as array-like, raising
`ValueError: Lengths must match to compare` unless its length equals
the Series length, in which case it compares elementwise. -/
def seriesEqTuple (xs : List ℤ) (l : List ℚ) : Except String (List Bool) :=
  if xs.length = l.length then
    .ok ((xs.zip l).map (fun p => decide ((p.1 : ℚ) = p.2)))
  else .error "ValueError: Lengths must match to compare"

/-- The fields of the `OBBAnns` object that `_evaluate_overlaps` could
read: the full annotation table plus the annotation-set /blacklist
configuration (which it in fact ignores). -/
structure OBBState where
  ann_info : List Ann
  chosen_ann_set_idx : ℕ
  classes_blacklist_id : List ℤ
  prop_ann_set_idx : ℕ

/-- `nr_gt = len(ann_gt_idxs)` (lines 520-530): the size of the set of
annotation-table index labels whose `int(cat_id[0])` equals `by_class`
(all labels when `by_class is None`).  Reads only `self.ann_info`. -/
def nr_gt_of (s : OBBState) (by_class : Option PyVal) : ℕ :=
  match by_class with
  | some bc => (((s.ann_info.filter (fun a => pyEq (a.cat_id.headD 0) bc)).map Ann.id).dedup).length
  | none => ((s.ann_info.map Ann.id).dedup).length

/-- `nr_gt` when `by_class` is bound to the threshold TUPLE (the buggy
aggregate call): the Series-vs-tuple comparison of lines 523-526 runs
first and can raise; on the equal-length path the mask selects rows and
`len(set(index))` is taken as usual. -/
def nr_gt_of_tuple (s : OBBState) (l : List ℚ) : Except String ℕ :=
  match seriesEqTuple (s.ann_info.map (fun a => a.cat_id.headD 0)) l with
  | .error e => .error e
  | .ok mask =>
    .ok ((((s.ann_info.zip mask).filter (fun p => p.2)).map (fun p => p.1.id)).dedup).length

/-- The per-threshold metrics dict (line 542):
`metrics[iou_thr] = \x7b'ap': ..., 'precision': np.average(precision), 'recall': np.average(recall)\x7d`. -/
def mkMetric (r : List ℚ × List ℚ × ℚ) : List (String × ℚ) :=
  [("ap", r.2.2), ("precision", npAverage r.2.1), ("recall", npAverage r.1)]

/-- `_evaluate_overlaps` (lines 506-545): iterate over whatever was
passed as `iou_thrs` and build one metrics dict per iterated value. -/
def evaluate_overlaps (s : OBBState) (overlaps : List OverlapRec) (iou_thrs : List ℚ)
    (by_class : Option PyVal) : List (ℚ × List (String × ℚ)) :=
  iou_thrs.map (fun iou_thr =>
    (iou_thr, mkMetric (evaluate_at overlaps iou_thr (nr_gt_of s by_class))))

/-- `np.unique`: sorted distinct values. -/
def uniqueSorted (l : List ℤ) : List ℤ :=
  List.insertionSort (fun a b => a ≤ b) l.dedup

/-- `self.proposals[self.proposals['img_idx'] == img_idx]` (line 462). -/
def get_img_props (proposals : List Proposal) (idx : ℤ) : List Proposal :=
  proposals.filter (fun p => decide (p.img_idx = idx))

/-- The aggregation loop of `calculate_metrics` (lines 455-477):
for every unique image index, fetch its detections and ground truth
(`getAnns` stands for `self.get_anns`, the out-of-scope annotation
loader/filter) and run the per-image matcher, collecting a flat record
list. -/
def corpus_overlaps (getAnns : ℤ → List Ann) (proposals : List Proposal) : List OverlapRec :=
  (uniqueSorted (proposals.map Proposal.img_idx)).flatMap
    (fun idx => process_image (get_img_props proposals idx) (getAnns idx))

/-- `tot_props = self.proposals['cat_id'].value_counts()` (line 457):
per-category proposal counts, in descending count order.  Iterating the
Series yields these count values. -/
def value_counts (proposals : List Proposal) : List ℚ :=
  List.insertionSort (fun a b : ℚ => b ≤ a)
    (((proposals.map Proposal.cat_id).dedup).map
      (fun c => ((proposals.filter (fun p => decide (p.cat_id = c))).length : ℚ)))

/-- `_evaluate_overlaps` as reached by the aggregate branch, where
`by_class` is bound to the caller's threshold TUPLE: each loop
iteration evaluates the Series-vs-tuple comparison, so the first
iteration already raises when the lengths differ; with zero iterations
the comparison never runs. -/
def evaluate_overlaps_tuple (s : OBBState) (overlaps : List OverlapRec) (iou_thrs : List ℚ)
    (by_class : List ℚ) : Except String (List (ℚ × List (String × ℚ))) :=
  if iou_thrs = [] then .ok []
  else
    match nr_gt_of_tuple s by_class with
    | .error e => .error e
    | .ok n => .ok (iou_thrs.map (fun t => (t, mkMetric (evaluate_at overlaps t n))))

/-- The aggregate (non-classwise) branch of `calculate_metrics`
(lines 487-491): `results_dict["average"] = self._evaluate_overlaps(overlaps, tot_props, iou_thrs)`.
Note the positional slip: `tot_props` lands in the `iou_thrs` parameter
and the real threshold tuple lands in `by_class`. -/
def calculate_metrics_average_entry (s : OBBState) (getAnns : ℤ → List Ann)
    (proposals : List Proposal) (iou_thrs : List ℚ) :
    Except String (List (ℚ × List (String × ℚ))) :=
  evaluate_overlaps_tuple s (corpus_overlaps getAnns proposals) (value_counts proposals)
    iou_thrs

/-- The classwise branch of `calculate_metrics` (lines 480-486): for
every distinct category value of the overlap records (in `np.unique`
order), evaluate the records of that category with
`by_class = class_idx` — here the argument order is correct. -/
def calculate_metrics_classwise (s : OBBState) (getAnns : ℤ → List Ann)
    (proposals : List Proposal) (iou_thrs : List ℚ) :
    List (ℚ × List (ℚ × List (String × ℚ))) :=
  let overlaps := corpus_overlaps getAnns proposals
  (uniqueSorted (overlaps.map OverlapRec.cat_id)).map (fun c =>
    ((c : ℚ), evaluate_overlaps s (overlaps.filter (fun o => decide (o.cat_id = c)))
      iou_thrs (some (.num (c : ℚ)))))

/-- Python dict lookup `d[k]` on a string-keyed dict: `none` models a
raised `KeyError`. -/
def dictGet (d : List (String × ℚ)) (k : String) : Option ℚ :=
  (d.find? (fun p => p.1 == k)).map Prod.snd

def sumKeyGo (k : String) : Option ℚ → List (List (String × ℚ)) → Option ℚ
  | acc, [] => acc
  | acc, d :: ds =>
    sumKeyGo k
      (match acc, dictGet d k with
       | some s, some v => some (s + v)
       | _, _ => none) ds

/-- The accumulation `averaged_dict[key] += eval_dict[key]` over all
per-threshold dicts for one key; `none` once any lookup raises. -/
def sumKey (dicts : List (List (String × ℚ))) (k : String) : Option ℚ :=
  sumKeyGo k (some 0) dicts

/-- The `average_thrs` stage of `calculate_metrics` (lines 493-503):
sum `eval_dict['accuracy']`, `eval_dict['precision']`,
`eval_dict['recall']` over the per-threshold dicts and divide by the
number of thresholds. -/
def average_thrs_stage (tresh_dict : List (ℚ × List (String × ℚ))) :
    Option (List (String × ℚ)) :=
  match sumKey (tresh_dict.map Prod.snd) "accuracy",
      sumKey (tresh_dict.map Prod.snd) "precision",
      sumKey (tresh_dict.map Prod.snd) "recall" with
  | some a, some p, some r =>
    some [("accuracy", a / tresh_dict.length), ("precision", p / tresh_dict.length),
      ("recall", r / tresh_dict.length)]
  | _, _, _ => none

/-- The whole `average_thrs` loop (lines 493-503) over
`results_dict.items()`: every per-category threshold dict must be
averaged; the first failed `eval_dict` lookup aborts the computation
(`none` models the raised `KeyError`). -/
def average_thrs_all : List (ℚ × List (ℚ × List (String × ℚ))) →
    Option (List (ℚ × List (String × ℚ)))
  | [] => some []
  | (k, td) :: rest =>
    match average_thrs_stage td, average_thrs_all rest with
    | some d, some ds => some ((k, d) :: ds)
    | _, _ => none

/-- The loaded state for the witness scenario: one image, one class-3
ground truth, no blacklist. -/
def s0 : OBBState := ⟨[ann0], 0, [], 0⟩

/-- `self.get_anns` for the witness scenario. -/
def getAnns0 : ℤ → List Ann := fun idx => if idx = 0 then [ann0] else []

/-- A single perfect class-3 proposal on image 0. -/
def props0 : List Proposal := [detHigh]

theorem cumsumGo_length : ∀ (acc : ℚ) (l : List ℚ), (cumsumGo acc l).length = l.length
  | _, [] => rfl
  | acc, x :: xs => by simp [cumsumGo, cumsumGo_length (acc + x) xs]

theorem tp_cumsum_length (ov : List OverlapRec) (t : ℚ) :
    (tp_cumsum ov t).length = ov.length := by
  simp [tp_cumsum, tp_flags, cumsum, cumsumGo_length, sortOverlapsDesc,
    List.length_insertionSort]

theorem fp_cumsum_length (ov : List OverlapRec) (t : ℚ) :
    (fp_cumsum ov t).length = ov.length := by
  simp [fp_cumsum, fp_flags, cumsum, cumsumGo_length, sortOverlapsDesc,
    List.length_insertionSort]

theorem envelope_length : ∀ l : List ℚ, (envelope l).length = l.length
  | [] => rfl
  | p :: ps => by
    have ih := envelope_length ps
    simp only [envelope]
    cases h : envelope ps with
    | nil =>
      rw [h] at ih
      simp only [List.length_nil] at ih
      simp [← ih]
    | cons q qs =>
      rw [h] at ih
      simp only [List.length_cons] at ih ⊢
      omega

theorem getLast?_cons_of_ne_nil {α : Type} (a : α) :
    ∀ (l : List α), l ≠ [] → (a :: l).getLast? = l.getLast?
  | [], h => absurd rfl h
  | _ :: _, _ => List.getLast?_cons_cons

theorem envelope_getLast? : ∀ l : List ℚ, (envelope l).getLast? = l.getLast?
  | [] => rfl
  | p :: ps => by
    have ih := envelope_getLast? ps
    simp only [envelope]
    cases h : envelope ps with
    | nil =>
      have hps : ps = [] := by
        have hl := envelope_length ps
        rw [h] at hl
        exact List.length_eq_zero.mp hl.symm
      subst hps
      rfl
    | cons q qs =>
      have hps : ps ≠ [] := by
        intro hemp
        subst hemp
        simp [envelope] at h
      rw [h] at ih
      rw [getLast?_cons_of_ne_nil p ps hps, ← ih]
      exact List.getLast?_cons_cons

theorem apSum_zeros : ∀ (n : ℕ) (ps : List ℚ), ps.length = n + 2 → ps.getLast? = some 0 →
    apSum (0 :: (List.replicate n 0 ++ [1])) ps = 0
  | 0, ps, hlen, hlast => by
    match ps, hlen with
    | [p0, p1], _ =>
      have h1 : p1 = (0 : ℚ) := by simpa using hlast
      subst h1
      norm_num [apSum]
  | n + 1, ps, hlen, hlast => by
    match ps, hlen with
    | p0 :: p1 :: ps', hlen =>
      have hlen' : (p1 :: ps').length = n + 2 := by simpa using hlen
      have hlast' : (p1 :: ps').getLast? = some 0 := by
        rw [← hlast]
        exact (getLast?_cons_of_ne_nil p0 _ (by simp)).symm
      have ih := apSum_zeros n (p1 :: ps') hlen' hlast'
      rw [List.replicate_succ, List.cons_append]
      simp only [apSum, ne_eq, not_true_eq_false, if_false, sub_self, zero_add]
      exact ih

theorem average_precision_zero_recalls (n : ℕ) (precs : List ℚ) (h : precs.length = n) :
    average_precision (List.replicate n 0) precs = 0 := by
  unfold average_precision
  apply apSum_zeros n
  · rw [envelope_length]
    simp [h]
  · rw [envelope_getLast?]
    rw [show ((0 : ℚ) :: precs ++ [0]) = ((0 : ℚ) :: precs) ++ [0] from by simp]
    exact List.getLast?_concat _

theorem map_mul_zero : ∀ l : List ℚ, l.map (fun x => x * 0) = List.replicate l.length 0
  | [] => rfl
  | x :: xs => by simp [map_mul_zero xs, List.replicate_succ]

theorem getD_map_of_lt (f : ℚ → ℚ) : ∀ (l : List ℚ) (i : ℕ), i < l.length →
    (l.map f).getD i 0 = f (l.getD i 0)
  | [], i, h => absurd h (by simp)
  | x :: xs, 0, _ => rfl
  | x :: xs, i + 1, h => by
    simp only [List.map_cons, List.getD_cons_succ]
    exact getD_map_of_lt f xs i (by simpa using h)

/-- Claim C8: with a ground-truth count of zero the recall sequence is
identically 0 and the average precision is 0 (the guard `tp_sum * 0`
replaces the division, so no division error can occur), while with a
positive count every recall entry is the cumulative true-positive count
divided by the total ground-truth count. -/
theorem C8_zero_ground_truth_guard (ov : List OverlapRec) (t : ℚ) :
    (evaluate_at ov t 0).1 = List.replicate ov.length 0 ∧
    (evaluate_at ov t 0).2.2 = 0 ∧
    ∀ nr_gt : ℕ, 0 < nr_gt → ∀ i : ℕ, i < ov.length →
      (evaluate_at ov t nr_gt).1.getD i 0 = (tp_cumsum ov t).getD i 0 / (nr_gt : ℚ) := by
  refine ⟨?_, ?_, ?_⟩
  · simp only [evaluate_at]
    rw [if_neg (lt_irrefl 0), map_mul_zero, tp_cumsum_length]
  · simp only [evaluate_at]
    rw [if_neg (lt_irrefl 0), map_mul_zero, tp_cumsum_length]
    apply average_precision_zero_recalls
    simp [List.length_zip, tp_cumsum_length, fp_cumsum_length]
  · intro nr hnr i hi
    simp only [evaluate_at]
    rw [if_pos hnr]
    exact getD_map_of_lt _ _ _ (by rw [tp_cumsum_length]; exact hi)

/-- Witness for C8: one perfect record, threshold `1/2`, one ground
truth; the single recall entry is `tp_sum[0] / 1`. -/
theorem C8_zero_ground_truth_guard_witness :
    (evaluate_at [⟨1, 1, 3, 9 / 10⟩] (1 / 2) 1).1.getD 0 0 =
      (tp_cumsum [⟨1, 1, 3, 9 / 10⟩] (1 / 2)).getD 0 0 / ((1 : ℕ) : ℚ) :=
  (C8_zero_ground_truth_guard [⟨1, 1, 3, 9 / 10⟩] (1 / 2)).2.2 1 (by norm_num) 0 (by norm_num)

/-- Claim C10: the classwise recall denominator counts annotations of
the WHOLE loaded annotation table whose first-position category id
equals the class: it does not depend on the annotation-set filter, the
blacklist, or the proposal fields of the state, and `_evaluate_overlaps`
recomputes the identical count for every threshold of the pass. -/
theorem C10_classwise_gt_denominator (ann_info : List Ann) (i1 i2 : ℕ) (b1 b2 : List ℤ)
    (p1 p2 : ℕ) (c : ℚ) (ov : List OverlapRec) (thrs : List ℚ) :
    nr_gt_of ⟨ann_info, i1, b1, p1⟩ (some (.num c)) =
      nr_gt_of ⟨ann_info, i2, b2, p2⟩ (some (.num c)) ∧
    ((ann_info.map Ann.id).Nodup →
      nr_gt_of ⟨ann_info, i1, b1, p1⟩ (some (.num c)) =
        (ann_info.filter (fun a => pyEq (a.cat_id.headD 0) (.num c))).length) ∧
    evaluate_overlaps ⟨ann_info, i1, b1, p1⟩ ov thrs (some (.num c)) =
      thrs.map (fun t =>
        (t, mkMetric (evaluate_at ov t (nr_gt_of ⟨ann_info, i1, b1, p1⟩ (some (.num c)))))) := by
  refine ⟨rfl, ?_, rfl⟩
  intro hnodup
  have hsub : List.Sublist
      ((ann_info.filter (fun a => pyEq (a.cat_id.headD 0) (.num c))).map Ann.id)
      (ann_info.map Ann.id) :=
    (List.filter_sublist ann_info).map Ann.id
  have hnd := hnodup.sublist hsub
  simp only [nr_gt_of]
  rw [List.dedup_eq_self.mpr hnd, List.length_map]

/-- Witness for C10: concrete one-row table with distinct ids. -/
theorem C10_classwise_gt_denominator_witness :
    nr_gt_of ⟨[ann0], 0, [], 0⟩ (some (.num 3)) =
      ([ann0].filter (fun a => pyEq (a.cat_id.headD 0) (.num 3))).length :=
  (C10_classwise_gt_denominator [ann0] 0 0 [] [] 0 0 3 [] []).2.1 (by simp [ann0])

theorem dictGet_mkMetric_accuracy (r : List ℚ × List ℚ × ℚ) :
    dictGet (mkMetric r) "accuracy" = none := by
  simp [dictGet, mkMetric, List.find?]

theorem sumKeyGo_none (k : String) : ∀ ds : List (List (String × ℚ)),
    sumKeyGo k none ds = none
  | [] => rfl
  | d :: ds => by
    simp only [sumKeyGo]
    exact sumKeyGo_none k ds

theorem average_thrs_stage_keyerror (s : OBBState) (ov : List OverlapRec)
    (bc : Option PyVal) (thrs : List ℚ) (hne : thrs ≠ []) :
    average_thrs_stage (evaluate_overlaps s ov thrs bc) = none := by
  match thrs, hne with
  | t :: ts, _ =>
    have hacc : sumKey ((evaluate_overlaps s ov (t :: ts) bc).map Prod.snd) "accuracy" = none := by
      simp only [evaluate_overlaps, List.map_cons, sumKey, sumKeyGo]
      rw [dictGet_mkMetric_accuracy]
      exact sumKeyGo_none _ _
    simp only [average_thrs_stage, hacc]

/-- Claim C2 (refuted, code bug): with `average_thrs=True` the loop
initialises `averaged_dict` with keys `accuracy`, `precision`, `recall`
but `_evaluate_overlaps` emits dicts keyed `ap`, `precision`, `recall`,
so the very first lookup `eval_dict['accuracy']` raises a `KeyError`.
Exhibited on the classwise path (the aggregate path already raises a
`ValueError` inside `_evaluate_overlaps`, see C1): for the perfect
one-image scenario with thresholds `(0.5, 0.55)` the averaging stage
fails instead of returning a scalar triple per category. -/
theorem C2_average_thrs_keyerror :
    average_thrs_all (calculate_metrics_classwise s0 getAnns0 props0 [1 / 2, 11 / 20]) =
      none := by
  have h : calculate_metrics_classwise s0 getAnns0 props0 [1 / 2, 11 / 20] =
      [((3 : ℚ), evaluate_overlaps s0 [⟨1, 1, 3, 9 / 10⟩] [1 / 2, 11 / 20]
        (some (.num (3 : ℚ))))] := by
    norm_num [calculate_metrics_classwise, corpus_overlaps, uniqueSorted, get_img_props,
      process_image, sort_values_score, List.insertionSort, List.orderedInsert, matchLoop,
      calculate_tpfp, same_cat_gt, alignedOverlaps, seriesMax, seriesIdxmax,
      calculate_aligned_overlap, toBox4, qmin, qmax, drop_id, List.dedup_cons_of_not_mem,
      s0, getAnns0, props0, detHigh, ann0]
  rw [h]
  simp only [average_thrs_all]
  rw [average_thrs_stage_keyerror s0 _ _ _ (by simp)]

/-- Claim C1 (refuted, code bug): in aggregate mode `calculate_metrics`
calls `self._evaluate_overlaps(overlaps, tot_props, iou_thrs)`, so the
per-category proposal counts land in the `iou_thrs` parameter (here the
iterated values are `[1]`, not the requested thresholds) and the
requested threshold tuple lands in `by_class`.  On the first loop
iteration the pandas comparison `Series == (0.5, 0.55)` of the 1-row
category Series against the 2-tuple raises
`ValueError: Lengths must match to compare`, so the aggregate branch
never returns any threshold-keyed mapping at all. -/
theorem C1_aggregate_threshold_keys_bug :
    calculate_metrics_average_entry s0 getAnns0 props0 [1 / 2, 11 / 20] =
      .error "ValueError: Lengths must match to compare" ∧
    value_counts props0 = [1] := by
  have hvc : value_counts props0 = [1] := by
    norm_num [value_counts, props0, detHigh, List.insertionSort, List.orderedInsert,
      List.dedup_cons_of_not_mem]
  refine ⟨?_, hvc⟩
  simp only [calculate_metrics_average_entry, hvc]
  norm_num [evaluate_overlaps_tuple, nr_gt_of_tuple, seriesEqTuple, s0, ann0]

end DeepScores
